import Mathlib

/-!
Verification of the TrendDrop trending-product catalog service.

This file gives a shallow embedding, in Lean 4, of the parts of the
repository that the checked claims are about:

* the data model (`Product`, `Trend`, `Region`, `Video`) backed by a
  relational store, modelled as lists of rows plus an id counter (`DB`);
* the ingestion worker `TdScraper` (`server/app/services/agents/tdSCRAPER.py`):
  the upsert logic of `_save_products`, the pass driver
  `search_trending_products` with its progress-callback contract, and the
  mock region generator `_generate_mock_regions`;
* the product listing endpoint `get_products`
  (`server/app/api/product_routes.py`): filtering, sorting, pagination;
* the scraper start endpoint `start_scraper`
  (`server/app/api/scraper_routes.py`): the already-running guard.

Modelling conventions: Python ints are `Int` (or `Nat` for counters and
ids), Python floats are exact rationals `ℚ` (the float expressions in the
source stay far from representation boundaries, so exact arithmetic is the
intended reading), `datetime` values are abstract `Int` timestamps, and
`random.*` calls are parametrised by explicit oracles supplying the drawn
values, with `randint lo hi r = lo + r % (hi + 1 - lo)` realising a draw
from the inclusive range.  Database sessions are passed as explicit state;
`Except String` models a raised exception.
-/

namespace TrendDrop

/-- One row of the `products` table (`server/app/models/product.py`).
Optional descriptive columns are `Option String`; `created_at` comes from
the timestamped base. -/
structure Product where
  id : Nat
  name : String
  category : String
  subcategory : String
  price_range_low : ℚ
  price_range_high : ℚ
  trend_score : Int
  engagement_rate : Int
  sales_velocity : Int
  search_volume : Int
  geographic_spread : Int
  image_url : Option String
  description : Option String
  source_platform : Option String
  aliexpress_url : Option String
  cjdropshipping_url : Option String
  created_at : Int
deriving DecidableEq

/-- One row of the `trends` table (`server/app/models/trend.py`). -/
structure Trend where
  product_id : Nat
  date : Int
  engagement_value : Int
  sales_value : Int
  search_value : Int
deriving DecidableEq

/-- One row of the `regions` table (`server/app/models/region.py`). -/
structure Region where
  product_id : Nat
  country : String
  percentage : Int
deriving DecidableEq

/-- One row of the `videos` table (`server/app/models/video.py`). -/
structure Video where
  product_id : Nat
  title : String
  platform : String
  views : Int
  upload_date : Int
  thumbnail_url : String
  video_url : String
deriving DecidableEq

/-- The relational store: one list of rows per table, plus the id sequence
for the `products` primary key. -/
structure DB where
  products : List Product
  trends : List Trend
  regions : List Region
  videos : List Video
  next_id : Nat
deriving DecidableEq

/-- Trend entry of a candidate product dict (`_generate_mock_trends` item). -/
structure TrendData where
  date : Int
  engagement_value : Int
  sales_value : Int
  search_value : Int
deriving DecidableEq

/-- Region entry of a candidate product dict (`_generate_mock_regions` item). -/
structure RegionData where
  country : String
  percentage : Int
deriving DecidableEq

/-- Video entry of a candidate product dict (`_generate_mock_videos` item). -/
structure VideoData where
  title : String
  platform : String
  views : Int
  upload_date : Int
  thumbnail_url : String
  video_url : String
deriving DecidableEq

/-- A candidate product dict as produced by `_generate_mock_product` and
consumed by `_save_products`: base fields plus the three child lists that
`_save_products` pops off. -/
structure Candidate where
  name : String
  category : String
  subcategory : String
  price_range_low : ℚ
  price_range_high : ℚ
  trend_score : Int
  engagement_rate : Int
  sales_velocity : Int
  search_volume : Int
  geographic_spread : Int
  trends : List TrendData
  regions : List RegionData
  videos : List VideoData
deriving DecidableEq

namespace TdScraper

/-- The duplicate lookup of `_save_products` (tdSCRAPER.py lines 285-288):
`db.query(Product).filter(Product.name == ..., Product.category == ...).first()`. -/
def findProduct (products : List Product) (name category : String) : Option Product :=
  products.find? fun p => p.name == name && p.category == category

/-- The significant-change test of `_save_products` (line 307):
`abs(old_value - new_value) / max(1, old_value) > 0.05`. -/
def metricChanged (old new : Int) : Prop :=
  |(old : ℚ) - (new : ℚ)| / max 1 (old : ℚ) > 0.05

instance (old new : Int) : Decidable (metricChanged old new) :=
  inferInstanceAs (Decidable (_ > _))

/-- The price-drift test of `_save_products` (lines 313-314): either bound
moved by more than 0.5 absolute units. -/
def priceChanged (p : Product) (c : Candidate) : Prop :=
  |p.price_range_low - c.price_range_low| > 0.5 ∨
  |p.price_range_high - c.price_range_high| > 0.5

instance (p : Product) (c : Candidate) : Decidable (priceChanged p c) :=
  inferInstanceAs (Decidable (_ ∨ _))

/-- The in-place mutation of an existing product by `_save_products`
(lines 294-318), unrolled over the five metric attributes of the `metrics`
list and the price pair: each metric is overwritten when `metricChanged`
holds for it, both price bounds are overwritten when `priceChanged` holds,
and the returned flag is `has_updates`. -/
def updateProduct (p : Product) (c : Candidate) : Product × Bool :=
  ({ p with
      trend_score :=
        if metricChanged p.trend_score c.trend_score then c.trend_score else p.trend_score
      engagement_rate :=
        if metricChanged p.engagement_rate c.engagement_rate then c.engagement_rate
        else p.engagement_rate
      sales_velocity :=
        if metricChanged p.sales_velocity c.sales_velocity then c.sales_velocity
        else p.sales_velocity
      search_volume :=
        if metricChanged p.search_volume c.search_volume then c.search_volume
        else p.search_volume
      geographic_spread :=
        if metricChanged p.geographic_spread c.geographic_spread then c.geographic_spread
        else p.geographic_spread
      price_range_low :=
        if priceChanged p c then c.price_range_low else p.price_range_low
      price_range_high :=
        if priceChanged p c then c.price_range_high else p.price_range_high },
    decide (metricChanged p.trend_score c.trend_score) ||
    decide (metricChanged p.engagement_rate c.engagement_rate) ||
    decide (metricChanged p.sales_velocity c.sales_velocity) ||
    decide (metricChanged p.search_volume c.search_volume) ||
    decide (metricChanged p.geographic_spread c.geographic_spread) ||
    decide (priceChanged p c))

/-- Build a `Trend` row for a product id, as `Trend(product_id=..., **trend_data)`. -/
def mkTrend (pid : Nat) (t : TrendData) : Trend :=
  { product_id := pid, date := t.date, engagement_value := t.engagement_value,
    sales_value := t.sales_value, search_value := t.search_value }

/-- Build a `Region` row for a product id, as `Region(product_id=..., **region_data)`. -/
def mkRegion (pid : Nat) (r : RegionData) : Region :=
  { product_id := pid, country := r.country, percentage := r.percentage }

/-- Build a `Video` row for a product id, as `Video(product_id=..., **video_data)`. -/
def mkVideo (pid : Nat) (v : VideoData) : Video :=
  { product_id := pid, title := v.title, platform := v.platform, views := v.views,
    upload_date := v.upload_date, thumbnail_url := v.thumbnail_url, video_url := v.video_url }

/-- Build a new `Product` row from a candidate dict, as `Product(**product_data)`;
columns absent from the dict stay at their defaults, `created_at` is the
insertion time. -/
def mkProduct (pid : Nat) (now : Int) (c : Candidate) : Product :=
  { id := pid, name := c.name, category := c.category, subcategory := c.subcategory,
    price_range_low := c.price_range_low, price_range_high := c.price_range_high,
    trend_score := c.trend_score, engagement_rate := c.engagement_rate,
    sales_velocity := c.sales_velocity, search_volume := c.search_volume,
    geographic_spread := c.geographic_spread, image_url := none, description := none,
    source_platform := none, aliexpress_url := none, cjdropshipping_url := none,
    created_at := now }

/-- The trend reconciliation of the update path (lines 325-334): append each
candidate trend whose `(product_id, date)` is not already present; each
appended row is visible to the following existence checks (session autoflush). -/
def addTrends (ts : List Trend) (pid : Nat) : List TrendData → List Trend
  | [] => ts
  | td :: rest =>
      if ts.any fun t => t.product_id == pid && t.date == td.date then
        addTrends ts pid rest
      else
        addTrends (ts ++ [mkTrend pid td]) pid rest

/-- The video reconciliation of the update path (lines 337-345): append each
candidate video whose `(product_id, video_url)` is not already present. -/
def addVideos (vs : List Video) (pid : Nat) : List VideoData → List Video
  | [] => vs
  | vd :: rest =>
      if vs.any fun v => v.product_id == pid && v.video_url == vd.video_url then
        addVideos vs pid rest
      else
        addVideos (vs ++ [mkVideo pid vd]) pid rest

/-- One iteration of the loop of `_save_products` (lines 278-377) on a single
candidate: look the candidate up by `(name, category)`; on a match apply the
in-place field updates and, only when dirty, reconcile trends and videos
(regions are not touched); on a miss insert the product with all of its
children and count it.  Returns the store and the updated `total_found`. -/
def _save_product (now : Int) (db : DB) (found : Nat) (c : Candidate) : DB × Nat :=
  match findProduct db.products c.name c.category with
  | some p =>
      let pd := updateProduct p c
      let db1 := { db with products := db.products.map fun q => if q.id = p.id then pd.1 else q }
      if pd.2 then
        ({ db1 with
            trends := addTrends db1.trends p.id c.trends,
            videos := addVideos db1.videos p.id c.videos }, found)
      else
        (db1, found)
  | none =>
      let pid := db.next_id
      ({ db with
          products := db.products ++ [mkProduct pid now c],
          trends := db.trends ++ c.trends.map (mkTrend pid),
          regions := db.regions ++ c.regions.map (mkRegion pid),
          videos := db.videos ++ c.videos.map (mkVideo pid),
          next_id := pid + 1 }, found + 1)

/-- `_save_products` (lines 271-377): fold `_save_product` over the batch. -/
def _save_products (now : Int) (db : DB) (found : Nat) : List Candidate → DB × Nat
  | [] => (db, found)
  | c :: cs =>
      let r := _save_product now db found c
      _save_products now r.1 r.2 cs

/-- The platform catalog of `search_trending_products` (line 58). -/
def platforms : List String :=
  ["tiktok", "instagram", "pinterest", "youtube", "google_trends"]

/-- The category catalog of `search_trending_products` (lines 59-62). -/
def categories : List String :=
  ["home_decor", "kitchen_gadgets", "beauty_products", "fitness_equipment",
   "pet_accessories", "electronics", "clothing", "outdoor", "baby_products"]

/-- Randomness oracle for one pass: `cnt u` feeds the `random.randint(1, max_products)`
draw of unit `u` (unit `u` is the `(category i, platform j)` pair with
`u = i * 5 + j`), and `gen u k` is the `k`-th mock product generated in unit `u`. -/
structure PassOracle where
  cnt : Nat → Nat
  gen : Nat → Nat → Candidate

/-- `random.randint(lo, hi)` with draw `r`: raises `ValueError` on an empty
range (`hi < lo`), otherwise returns a value in `[lo, hi]`. -/
def randintE (lo hi r : Nat) : Except String Nat :=
  if hi < lo then .error "empty range for randrange" else .ok (lo + r % (hi + 1 - lo))

/-- The body of the nested category/platform loops of `search_trending_products`
(lines 64-91), flattened over the unit index `u = i * len(platforms) + j`:
report progress `(u, total_steps, total_found)`, draw the unit's product count,
generate and save the unit's products, and stop early once `total_found`
reaches the target.  Returns the store, `total_found`, and the list of
progress-callback invocations. -/
def runUnits (now : Int) (count : Nat) (o : PassOracle) (mx : Nat) :
    List Nat → DB → Nat → Except String (DB × Nat × List (Nat × Nat × Nat))
  | [], db, found => .ok (db, found, [])
  | u :: rest, db, found =>
      match randintE 1 mx (o.cnt u) with
      | .error e => .error e
      | .ok n =>
          let r := _save_products now db found ((List.range n).map fun k => o.gen u k)
          if count ≤ r.2 then
            .ok (r.1, r.2, [(u, categories.length * platforms.length, found)])
          else
            match runUnits now count o mx rest r.1 r.2 with
            | .error e => .error e
            | .ok (db', found', tr) =>
                .ok (db', found', (u, categories.length * platforms.length, found) :: tr)

/-- `_verify_llm_connection` (lines 100-105): the stub always reports success. -/
def _verify_llm_connection : Bool := true

/-- `search_trending_products` (lines 35-98): verify the LLM connection, run
the 45 category/platform units with per-unit cap
`count // len(platforms) // len(categories)`, then issue the final progress
call `progress_callback(1, 1, total_found)`.  The result carries the store,
the final `total_found`, and the full progress-callback trace. -/
def search_trending_products (db : DB) (now : Int) (count : Nat) (o : PassOracle) :
    Except String (DB × Nat × List (Nat × Nat × Nat)) :=
  if _verify_llm_connection then
    match runUnits now count o (count / platforms.length / categories.length)
        (List.range (categories.length * platforms.length)) db 0 with
    | .error e => .error e
    | .ok (db', found, tr) => .ok (db', found, tr ++ [(1, 1, found)])
  else
    .error "Cannot connect to LLM"

/-- Randomness oracle for `_generate_mock_regions`: one draw for the country
count, one per initial percentage, one per `random.sample` pick, and one per
iteration of each of the two adjustment loops. -/
structure RegionRand where
  numPick : Nat
  pctPick : Nat → Nat
  samplePick : Nat → Nat
  fillPick : Nat → Nat
  shrinkPick : Nat → Nat

/-- `random.randint(lo, hi)` on a nonempty range, with draw `r`. -/
def randint (lo hi r : Nat) : Nat := lo + r % (hi + 1 - lo)

/-- The country pool of `_generate_mock_regions` (lines 206-207). -/
def countries : List String :=
  ["United States", "United Kingdom", "Canada", "Australia",
   "Germany", "France", "Japan", "Brazil", "India", "Mexico"]

/-- `random.sample(pool, n)`: draw `n` distinct elements, removing each pick
from the pool. -/
def sample (pick : Nat → Nat) : Nat → List String → List String
  | 0, _ => []
  | _ + 1, [] => []
  | k + 1, pool =>
      let i := pick (k + 1) % pool.length
      pool.getD i "" :: sample pick k (pool.eraseIdx i)

/-- `normalized[idx] += 1` at a drawn index. -/
def incAt (l : List Nat) (i : Nat) : List Nat := l.set i (l.getD i 0 + 1)

/-- The first adjustment loop of `_generate_mock_regions` (lines 219-221):
`while sum(normalized) < 100`, increment a random entry.  The loop gains one
unit of sum per iteration, so with the initial sum at most 100 a fuel of 100
runs it to completion exactly as the unbounded `while` does. -/
def fillLoop (pick : Nat → Nat) : Nat → List Nat → List Nat
  | 0, l => l
  | f + 1, l =>
      if l.sum < 100 then fillLoop pick f (incAt l (pick (f + 1) % l.length)) else l

/-- The second adjustment loop of `_generate_mock_regions` (lines 223-226):
`while sum(normalized) > 100`, decrement a random entry that is above 1.
Fuel plays the same role as in `fillLoop`; the loop body is never reached
when the sum is already at most 100. -/
def shrinkLoop (pick : Nat → Nat) : Nat → List Nat → List Nat
  | 0, l => l
  | f + 1, l =>
      if 100 < l.sum then
        let i := pick (f + 1) % l.length
        shrinkLoop pick f (if 1 < l.getD i 0 then l.set i (l.getD i 0 - 1) else l)
      else l

/-- `_generate_mock_regions` (lines 204-236): draw 3-6 countries, draw raw
percentages in `[5, 100]`, normalise them to `int((p / total) * 100)` (exact
rational arithmetic models the float expression), adjust the list to sum to
100 with the two loops, and pair countries with percentages. -/
def _generate_mock_regions (g : RegionRand) : List RegionData :=
  let num_countries := randint 3 6 g.numPick
  let selected_countries := sample g.samplePick num_countries countries
  let percentages := (List.range num_countries).map fun k => randint 5 100 (g.pctPick k)
  let total := percentages.sum
  let normalized := percentages.map fun p => p * 100 / total
  let normalized := fillLoop g.fillPick 100 normalized
  let normalized := shrinkLoop g.shrinkPick 100 normalized
  List.zipWith (fun (c : String) (p : Nat) => RegionData.mk c (p : Int))
    selected_countries normalized

end TdScraper

namespace ProductRoutes

open TdScraper

/-- The paginated response of `GET /products/` (product_routes.py lines 99-105).
Items are the selected `Product` rows; serialising them through
`format_product` is response formatting, outside the modelled core. -/
structure ProductsPage where
  items : List Product
  total : Nat
  page : Nat
  limit : Nat
  pages : Nat
deriving DecidableEq

/-- Python truthiness of an optional string parameter: absent and `""` are
falsy (`if category:` / `if region:` at lines 56 and 62). -/
def truthyStr : Option String → Bool
  | none => false
  | some s => !(s == "")

/-- Python truthiness of an optional int parameter: absent and `0` are falsy
(`if trend_score:` at line 59). -/
def truthyInt : Option Int → Bool
  | none => false
  | some n => !(n == 0)

/-- The `valid_sort_fields` allow-list (lines 72-80). -/
def valid_sort_fields : List String :=
  ["trend_score", "created_at", "name", "category",
   "engagement_rate", "sales_velocity", "search_volume"]

/-- Comparison on the column selected by the (already validated) sort key. -/
def sortKeyLe (key : String) (a b : Product) : Bool :=
  if key == "created_at" then decide (a.created_at ≤ b.created_at)
  else if key == "name" then decide (a.name ≤ b.name)
  else if key == "category" then decide (a.category ≤ b.category)
  else if key == "engagement_rate" then decide (a.engagement_rate ≤ b.engagement_rate)
  else if key == "sales_velocity" then decide (a.sales_velocity ≤ b.sales_velocity)
  else if key == "search_volume" then decide (a.search_volume ≤ b.search_volume)
  else decide (a.trend_score ≤ b.trend_score)

/-- Insert into a sorted list, modelling a total `ORDER BY` comparison. -/
def insertLe {α : Type} (le : α → α → Bool) (a : α) : List α → List α
  | [] => [a]
  | b :: l => if le a b then a :: b :: l else b :: insertLe le a l

/-- Sort by the given comparison (`ORDER BY`; ties in unspecified order, as
in SQL). -/
def sortLe {α : Type} (le : α → α → Bool) : List α → List α
  | [] => []
  | a :: l => insertLe le a (sortLe le l)

/-- `str.lower()`, applied to `sort_order` at line 87. -/
def strLower (s : String) : String := String.mk (s.data.map Char.toLower)

/-- The `regions` rows of one product (the `Product.regions` relationship). -/
def regionsOf (db : DB) (pid : Nat) : List Region :=
  db.regions.filter fun r => r.product_id == pid

/-- `GET /products/` (`get_products`, product_routes.py lines 23-107):
offset from `(page - 1) * limit`; conditionally apply the category,
minimum-trend-score and region filters (the region filter joins the regions
table, so the row set gains one row per region of each product that has a
matching region, and `query.count()` counts those joined rows); count the
rows; sort by the allow-listed key, falling back to `trend_score`, in the
requested order; paginate; and report `pages` by ceiling division. -/
def get_products (db : DB) (page limit : Nat) (category : Option String)
    (trend_score : Option Int) (region : Option String)
    (sort_by sort_order : String) : ProductsPage :=
  let offset := (page - 1) * limit
  let q := db.products
  let q := if truthyStr category then q.filter fun p => p.category == category.getD "" else q
  let q :=
    if truthyInt trend_score then
      q.filter fun p => decide (trend_score.getD 0 ≤ p.trend_score)
    else q
  let q :=
    if truthyStr region then
      (q.filter fun p =>
          (regionsOf db p.id).any fun r => r.country == region.getD "").flatMap
        fun p => (regionsOf db p.id).map fun _ => p
    else q
  let total_count := q.length
  let key := if valid_sort_fields.contains sort_by then sort_by else "trend_score"
  let sorted :=
    if strLower sort_order == "asc" then sortLe (sortKeyLe key) q
    else sortLe (fun a b => sortKeyLe key b a) q
  { items := (sorted.drop offset).take limit,
    total := total_count,
    page := page,
    limit := limit,
    pages := (total_count + limit - 1) / limit }

/-- The filter predicate of `get_products` read as a product-level property:
the product passes every active filter.  This is the claim reading of "the
count of products matching the active filters"; it is compared against the
row count the code actually reports. -/
def matchesFilters (db : DB) (category : Option String) (trend_score : Option Int)
    (region : Option String) (p : Product) : Bool :=
  (!truthyStr category || p.category == category.getD "") &&
  (!truthyInt trend_score || decide (trend_score.getD 0 ≤ p.trend_score)) &&
  (!truthyStr region || (regionsOf db p.id).any fun r => r.country == region.getD "")

/-- Number of products matching the active filters (claim reading of `total`). -/
def matchCount (db : DB) (category : Option String) (trend_score : Option Int)
    (region : Option String) : Nat :=
  (db.products.filter (matchesFilters db category trend_score region)).length

end ProductRoutes

namespace ScraperRoutes

/-- The global status variables of scraper_routes.py (lines 27-33) that
`start_scraper` reads or writes. -/
structure ScraperState where
  running : Bool
  progress : Nat
  total_found : Nat
  error : Option String
deriving DecidableEq

/-- The JSON body returned by `POST /scraper/start` (lines 61-67 and 76-82). -/
structure StartResponse where
  status : String
  message : String
  running : Bool
  progress : Nat
  total_found : Nat
deriving DecidableEq

/-- `start_scraper` (scraper_routes.py lines 40-82): if a pass is running and
`force` is not set, return the already-running error body and leave the
state alone; otherwise clear the error, set the running flag, and schedule
one background task.  The final `Nat` is the number of background tasks
added by the call. -/
def start_scraper (st : ScraperState) (count : Option Nat) (force : Bool)
    (max_products : Nat) : StartResponse × ScraperState × Nat :=
  if st.running && !force then
    ({ status := "error", message := "Scraper is already running", running := true,
       progress := st.progress, total_found := st.total_found }, st, 0)
  else
    ({ status := "success",
       message := "Scraper started, looking for " ++ toString (count.getD max_products)
         ++ " products",
       running := true, progress := 0, total_found := 0 },
     { st with error := none, running := true }, 1)

end ScraperRoutes

/-! ## Supporting lemmas for the upsert path -/

namespace TdScraper

/-- A metric never registers a significant change against itself. -/
theorem metricChanged_self (m : Int) : ¬ metricChanged m m := by
  unfold metricChanged
  rw [sub_self, abs_zero, zero_div]
  norm_num

/-- The first `(name, category)` match after the in-place mutation of the
matched row is the mutated row, provided the mutation keeps name and
category. -/
theorem findProduct_map_update (products : List Product) (name category : String)
    (p p' : Product) (h : findProduct products name category = some p)
    (hn : p'.name = p.name) (hc : p'.category = p.category) :
    findProduct (products.map fun q => if q.id = p.id then p' else q) name category
      = some p' := by
  unfold findProduct at h ⊢
  have hp : (p.name == name && p.category == category) = true :=
    @List.find?_some Product (fun q => q.name == name && q.category == category) p products h
  have hp' : (p'.name == name && p'.category == category) = true := by
    rw [hn, hc]; exact hp
  induction products with
  | nil => simp at h
  | cons q rest ih =>
      by_cases hq : (q.name == name && q.category == category) = true
      · have hqp : q = p := by
          rw [@List.find?_cons_of_pos Product
              (fun x => x.name == name && x.category == category) q rest hq] at h
          exact Option.some.inj h
        simp only [List.map_cons]
        rw [hqp, if_pos rfl]
        exact @List.find?_cons_of_pos Product
          (fun x => x.name == name && x.category == category) p' _ hp'
      · rw [@List.find?_cons_of_neg Product
            (fun x => x.name == name && x.category == category) q rest hq] at h
        simp only [List.map_cons]
        by_cases hid : q.id = p.id
        · rw [if_pos hid]
          exact @List.find?_cons_of_pos Product
            (fun x => x.name == name && x.category == category) p' _ hp'
        · rw [if_neg hid]
          rw [@List.find?_cons_of_neg Product
              (fun x => x.name == name && x.category == category) q _ hq]
          exact ih h

/-- An ingestion candidate identical to a stored product: same name,
category, five trend metrics and both price bounds; subcategory and the
child lists are arbitrary. -/
def candidateOf (p : Product) (sub : String) (tds : List TrendData)
    (rds : List RegionData) (vds : List VideoData) : Candidate :=
  { name := p.name, category := p.category, subcategory := sub,
    price_range_low := p.price_range_low, price_range_high := p.price_range_high,
    trend_score := p.trend_score, engagement_rate := p.engagement_rate,
    sales_velocity := p.sales_velocity, search_volume := p.search_volume,
    geographic_spread := p.geographic_spread, trends := tds, regions := rds, videos := vds }

/-- An identical candidate never trips the price-drift test. -/
theorem priceChanged_candidateOf (p : Product) (sub : String) (tds : List TrendData)
    (rds : List RegionData) (vds : List VideoData) :
    ¬ priceChanged p (candidateOf p sub tds rds vds) := by
  unfold priceChanged candidateOf
  simp only
  rw [sub_self, abs_zero, sub_self, abs_zero]
  norm_num

end TdScraper

/-! ## C1, C2, C8: the upsert path -/

open TdScraper in
/-- C1 (upsert idempotence): re-ingesting a candidate identical to a stored
product — the first `(name, category)` match, with the primary keys of the
store distinct — through `_save_products` leaves the store exactly as it
was (no new `Trend`, `Video` or `Region` rows, no field changes) and does
not increment `total_found`. -/
theorem c1_upsert_idempotence (now : Int) (db : DB) (found : Nat) (p : Product)
    (sub : String) (tds : List TrendData) (rds : List RegionData) (vds : List VideoData)
    (hid : (db.products.map Product.id).Nodup)
    (h : findProduct db.products p.name p.category = some p) :
    _save_products now db found [candidateOf p sub tds rds vds] = (db, found) := by
  have hmem : p ∈ db.products := List.mem_of_find?_eq_some h
  have hinj := List.inj_on_of_nodup_map hid
  have hpc : ¬ priceChanged p (candidateOf p sub tds rds vds) :=
    priceChanged_candidateOf p sub tds rds vds
  have hself : updateProduct p (candidateOf p sub tds rds vds) = (p, false) := by
    unfold updateProduct
    simp only [candidateOf] at hpc
    simp [candidateOf, ite_self, metricChanged_self, hpc]
  have hmap : (db.products.map fun q => if q.id = p.id then p else q) = db.products := by
    have hcongr : ∀ q ∈ db.products, (if q.id = p.id then p else q) = id q := by
      intro q hq
      by_cases hq' : q.id = p.id
      · rw [if_pos hq']
        exact (hinj hq hmem hq').symm
      · rw [if_neg hq']
        rfl
    rw [List.map_congr_left hcongr, List.map_id]
  unfold _save_products _save_products _save_product
  have hname : (candidateOf p sub tds rds vds).name = p.name := rfl
  have hcat : (candidateOf p sub tds rds vds).category = p.category := rfl
  rw [hname, hcat, h]
  dsimp only
  rw [hself]
  simp [hmap]

open TdScraper in
/-- C2 (upsert update rule): for a candidate matching a stored product by
exact `(name, category)`, the pass is not counted toward `total_found`, and
the stored row each of whose five trend metrics is overwritten with the
candidate's value exactly when `metricChanged` — that is,
`|old - new| / max(1, old) > 0.05` — holds for that metric (and whose price
bounds are both overwritten exactly when either moved by more than 0.5)
becomes the first `(name, category)` match of the store. -/
theorem c2_upsert_update_rule (now : Int) (db : DB) (found : Nat) (c : Candidate)
    (p : Product) (h : findProduct db.products c.name c.category = some p) :
    (_save_products now db found [c]).2 = found ∧
    findProduct (_save_products now db found [c]).1.products c.name c.category
      = some { p with
          trend_score :=
            if metricChanged p.trend_score c.trend_score then c.trend_score
            else p.trend_score
          engagement_rate :=
            if metricChanged p.engagement_rate c.engagement_rate then c.engagement_rate
            else p.engagement_rate
          sales_velocity :=
            if metricChanged p.sales_velocity c.sales_velocity then c.sales_velocity
            else p.sales_velocity
          search_volume :=
            if metricChanged p.search_volume c.search_volume then c.search_volume
            else p.search_volume
          geographic_spread :=
            if metricChanged p.geographic_spread c.geographic_spread then c.geographic_spread
            else p.geographic_spread
          price_range_low :=
            if priceChanged p c then c.price_range_low else p.price_range_low
          price_range_high :=
            if priceChanged p c then c.price_range_high else p.price_range_high } := by
  unfold _save_products _save_products _save_product
  rw [h]
  dsimp only
  by_cases hd : (updateProduct p c).2 = true
  · rw [if_pos hd]
    refine ⟨rfl, ?_⟩
    exact findProduct_map_update db.products c.name c.category p _ h rfl rfl
  · rw [if_neg hd]
    refine ⟨rfl, ?_⟩
    exact findProduct_map_update db.products c.name c.category p _ h rfl rfl

open TdScraper in
/-- C8 (region frame condition): when a candidate matches an existing
product, the update path of the upsert leaves the `regions` table exactly
as it was — existing `Region` rows are untouched and none are inserted,
whatever region data the candidate carries. -/
theorem c8_region_frame (now : Int) (db : DB) (found : Nat) (c : Candidate)
    (p : Product) (h : findProduct db.products c.name c.category = some p) :
    (_save_products now db found [c]).1.regions = db.regions := by
  unfold _save_products _save_products _save_product
  rw [h]
  dsimp only
  by_cases hd : (updateProduct p c).2 = true
  · rw [if_pos hd]
  · rw [if_neg hd]

/-! ## Concrete stores used to instantiate the theorems with hypotheses -/

/-- A concrete stored product. -/
def pW : Product :=
  { id := 1, name := "Wall Art Home Decor", category := "home_decor", subcategory := "wall_art",
    price_range_low := 10, price_range_high := 20, trend_score := 60, engagement_rate := 60,
    sales_velocity := 60, search_volume := 60, geographic_spread := 60, image_url := none,
    description := none, source_platform := none, aliexpress_url := none,
    cjdropshipping_url := none, created_at := 0 }

/-- A one-product store holding `pW`. -/
def dbW : DB := { products := [pW], trends := [], regions := [], videos := [], next_id := 2 }

/-- Witness for C1: re-saving the exact copy of the stored product of `dbW`
changes nothing and counts nothing. -/
theorem c1_upsert_idempotence_witness :
    TdScraper._save_products 0 dbW 0 [TdScraper.candidateOf pW "wall_art" [] [] []]
      = (dbW, 0) :=
  c1_upsert_idempotence 0 dbW 0 pW "wall_art" [] [] [] (by decide) (by rfl)

/-- The stored product of the C2 witness: `trend_score` 50. -/
def pW50 : Product := { pW with trend_score := 50 }

/-- A one-product store holding `pW50`. -/
def dbW50 : DB := { products := [pW50], trends := [], regions := [], videos := [], next_id := 2 }

/-- The C2 witness candidate: identical to `pW50` except `trend_score` 60. -/
def cW60 : Candidate :=
  { name := "Wall Art Home Decor", category := "home_decor", subcategory := "wall_art",
    price_range_low := 10, price_range_high := 20, trend_score := 60, engagement_rate := 60,
    sales_velocity := 60, search_volume := 60, geographic_spread := 60,
    trends := [], regions := [], videos := [] }

/-- Witness for C2: stored `trend_score` 50 with candidate 60 (a 20% change)
becomes 60, and the pass counts no new product. -/
theorem c2_upsert_update_rule_witness :
    (TdScraper._save_products 0 dbW50 0 [cW60]).2 = 0 ∧
    (TdScraper.findProduct (TdScraper._save_products 0 dbW50 0 [cW60]).1.products
        cW60.name cW60.category).map Product.trend_score = some 60 := by
  obtain ⟨h1, h2⟩ := c2_upsert_update_rule 0 dbW50 0 cW60 pW50 (by rfl)
  refine ⟨h1, ?_⟩
  rw [h2]
  have h60 : TdScraper.metricChanged pW50.trend_score cW60.trend_score := by
    show TdScraper.metricChanged 50 60
    unfold TdScraper.metricChanged
    norm_num
  simp only [Option.map_some']
  rw [if_pos h60]
  rfl

/-- The C8 witness candidate: matches `pW` with drifted metrics and fresh
region data. -/
def cW8 : Candidate :=
  { name := "Wall Art Home Decor", category := "home_decor", subcategory := "wall_art",
    price_range_low := 30, price_range_high := 80, trend_score := 95, engagement_rate := 95,
    sales_velocity := 95, search_volume := 95, geographic_spread := 95,
    trends := [], regions := [⟨"Canada", 100⟩], videos := [] }

/-- Witness for C8: updating the stored product of `dbW` with a drifted
candidate carrying region data leaves the regions table unchanged. -/
theorem c8_region_frame_witness :
    (TdScraper._save_products 0 dbW 0 [cW8]).1.regions = dbW.regions :=
  c8_region_frame 0 dbW 0 cW8 pW (by rfl)

/-! ## C4, C6, C10: the product listing endpoint -/

/-- A store with one product that has two region rows in the same country. -/
def dbC4 : DB :=
  { products := [pW], trends := [],
    regions := [⟨1, "United States", 60⟩, ⟨1, "United States", 40⟩],
    videos := [], next_id := 2 }

/-- A store with two products of trend scores 10 and 20. -/
def dbC6 : DB :=
  { products := [{ pW with id := 1, name := "Low", trend_score := 10 },
                 { pW with id := 2, name := "High", trend_score := 20 }],
    trends := [], regions := [], videos := [], next_id := 3 }

/-- Ceiling division, as the code's `(total + limit - 1) // limit`, agrees
with the rational ceiling `ceil(total / limit)` whenever `limit ≥ 1`. -/
theorem pages_eq_ceil (t l : Nat) (hl : 1 ≤ l) :
    (((t + l - 1) / l : ℕ) : ℤ) = ⌈(t : ℚ) / (l : ℚ)⌉ := by
  have hl0 : 0 < l := hl
  have hmod := Nat.div_add_mod (t + l - 1) l
  have hr : (t + l - 1) % l < l := Nat.mod_lt _ hl0
  set q := (t + l - 1) / l with hq
  have h1 : t ≤ l * q := by omega
  have h2 : l * q < t + l := by omega
  have hlq : (0 : ℚ) < (l : ℚ) := by exact_mod_cast hl0
  symm
  rw [Int.ceil_eq_iff]
  constructor
  · push_cast
    rw [lt_div_iff₀ hlq]
    have h2' : (l : ℚ) * q < (t : ℚ) + l := by exact_mod_cast h2
    ring_nf
    ring_nf at h2'
    linarith
  · push_cast
    rw [div_le_iff₀ hlq]
    have h1' : (t : ℚ) ≤ (l : ℚ) * q := by exact_mod_cast h1
    linarith

open ProductRoutes in
/-- C4 counterexample: with one stored product having two regions in the
requested country and `page = 1`, `limit = 1`, the region-filtered query
counts one row per `(product, region)` join pair, so the response reports
`pages = 2` while the ceiling of matching products over the limit is
`ceil(1 / 1) = 1`.  The claim that `pages == ceil(total / limit)` with
`total` the count of products matching the active filters is therefore
false. -/
theorem c4_pagination_counterexample :
    ¬ (((get_products dbC4 1 1 none none (some "United States") "trend_score" "desc").pages : ℤ)
        = ⌈(matchCount dbC4 none none (some "United States") : ℚ) / ((1 : ℕ) : ℚ)⌉) := by
  have h1 : (get_products dbC4 1 1 none none (some "United States")
      "trend_score" "desc").pages = 2 := by decide
  have h2 : matchCount dbC4 none none (some "United States") = 1 := by decide
  rw [h1, h2]
  norm_num

open ProductRoutes in
/-- C4 amended: for every request with `page ≥ 1` and `1 ≤ limit ≤ 100`, the
response satisfies `pages == ceil(total / limit)` and `len(items) ≤ limit`,
where `total` is the response's own total — the row count of the filtered
query, which equals the count of products matching the active filters
whenever the region filter is inactive (with an active region filter the
join counts each matching product once per region row). -/
theorem c4_pagination_amended (db : DB) (page limit : Nat) (cat : Option String)
    (ts : Option Int) (reg : Option String) (sb so : String)
    (_hp : 1 ≤ page) (hl1 : 1 ≤ limit) (_hl2 : limit ≤ 100) :
    (((get_products db page limit cat ts reg sb so).pages : ℤ)
        = ⌈((get_products db page limit cat ts reg sb so).total : ℚ) / (limit : ℚ)⌉) ∧
    (get_products db page limit cat ts reg sb so).items.length ≤ limit ∧
    (truthyStr reg = false →
      (get_products db page limit cat ts reg sb so).total = matchCount db cat ts reg) := by
  refine ⟨?_, ?_, ?_⟩
  · simp only [get_products]
    exact pages_eq_ceil _ limit hl1
  · simp only [get_products]
    rw [List.length_take]
    exact min_le_left _ _
  · intro hreg
    simp only [get_products, matchCount, hreg]
    have hrw : List.filter (matchesFilters db cat ts reg) db.products
        = List.filter (fun x =>
            (!truthyStr cat || x.category == cat.getD "") &&
            (!truthyInt ts || decide (ts.getD 0 ≤ x.trend_score))) db.products :=
      List.filter_congr fun x _ => by simp [matchesFilters, hreg]
    rw [hrw]
    cases hc : truthyStr cat <;> cases ht : truthyInt ts <;>
      simp [hc, ht, List.filter_filter, Bool.and_comm]

open ProductRoutes in
/-- Witness for the amended C4 at a concrete store and request. -/
theorem c4_pagination_amended_witness :
    (((get_products dbW 1 10 none none none "trend_score" "desc").pages : ℤ)
        = ⌈((get_products dbW 1 10 none none none "trend_score" "desc").total : ℚ)
            / ((10 : ℕ) : ℚ)⌉) ∧
    (get_products dbW 1 10 none none none "trend_score" "desc").items.length ≤ 10 ∧
    (get_products dbW 1 10 none none none "trend_score" "desc").total
      = matchCount dbW none none none := by
  obtain ⟨a, b, c⟩ := c4_pagination_amended dbW 1 10 none none none "trend_score" "desc"
    (by decide) (by decide) (by decide)
  exact ⟨a, b, c rfl⟩

open ProductRoutes in
/-- C6 counterexample: with two stored products of trend scores 10 and 20
and a request carrying an unknown `sort_by` together with
`sort_order = "asc"`, the returned items are sorted by `trend_score`
ascending — `[10, 20]` — not descending, refuting the claim that an unknown
sort field always falls back to `trend_score` descending. -/
theorem c6_sort_fallback_counterexample :
    ((get_products dbC6 1 10 none none none "bogus" "asc").items.map Product.trend_score
      = [10, 20]) ∧
    ¬ List.Chain' (fun a b : Int => b ≤ a)
        ((get_products dbC6 1 10 none none none "bogus" "asc").items.map
          Product.trend_score) := by
  have h : (get_products dbC6 1 10 none none none "bogus" "asc").items.map
      Product.trend_score = [10, 20] := by decide
  refine ⟨h, ?_⟩
  rw [h]
  simp

open ProductRoutes in
/-- C6 amended: a request whose `sort_by` is outside the allow-list does not
error and behaves exactly as the same request with `sort_by = "trend_score"`:
the fallback keeps the requested `sort_order`, so it sorts descending for
the default order and ascending when `sort_order = "asc"`. -/
theorem c6_sort_fallback_amended (db : DB) (page limit : Nat) (cat : Option String)
    (ts : Option Int) (reg : Option String) (so : String) (sb : String)
    (h : valid_sort_fields.contains sb = false) :
    get_products db page limit cat ts reg sb so
      = get_products db page limit cat ts reg "trend_score" so := by
  have h2 : valid_sort_fields.contains "trend_score" = true := by rfl
  unfold get_products
  rw [h, h2]
  simp

open ProductRoutes in
/-- Witness for the amended C6: the unknown field `"bogus"` gives the same
response as `"trend_score"`. -/
theorem c6_sort_fallback_amended_witness :
    get_products dbC6 1 10 none none none "bogus" "desc"
      = get_products dbC6 1 10 none none none "trend_score" "desc" :=
  c6_sort_fallback_amended dbC6 1 10 none none none "desc" "bogus" (by rfl)

open ProductRoutes in
/-- C10 (falsy filter parameters are ignored): `trend_score = 0`, an
empty-string `category` and an empty-string `region` each give exactly the
response of the request with that parameter omitted, for every store state
and every choice of the remaining parameters. -/
theorem c10_falsy_filters (db : DB) (page limit : Nat) (category : Option String)
    (trend_score : Option Int) (region : Option String) (sort_by sort_order : String) :
    get_products db page limit category (some 0) region sort_by sort_order
      = get_products db page limit category none region sort_by sort_order ∧
    get_products db page limit (some "") trend_score region sort_by sort_order
      = get_products db page limit none trend_score region sort_by sort_order ∧
    get_products db page limit category trend_score (some "") sort_by sort_order
      = get_products db page limit category trend_score none sort_by sort_order := by
  refine ⟨rfl, rfl, rfl⟩

/-! ## C3, C9: the pass driver and its progress-callback trace -/

/-- The empty store. -/
def dbEmpty : DB := { products := [], trends := [], regions := [], videos := [], next_id := 1 }

namespace TdScraper

/-- Counting only freshly inserted products, `total_found` never decreases
across a batch save. -/
theorem _save_products_found_mono (now : Int) :
    ∀ (cs : List Candidate) (db : DB) (found : Nat),
      found ≤ (_save_products now db found cs).2 := by
  intro cs
  induction cs with
  | nil => intro db found; exact le_refl _
  | cons c cs ih =>
      intro db found
      have h1 : found ≤ (_save_product now db found c).2 := by
        unfold _save_product
        cases hf : findProduct db.products c.name c.category with
        | some p =>
            dsimp only
            split
            · exact le_refl _
            · exact le_refl _
        | none =>
            dsimp only
            exact Nat.le_succ _
      calc found ≤ (_save_product now db found c).2 := h1
        _ ≤ (_save_products now (_save_product now db found c).1
              (_save_product now db found c).2 cs).2 := ih _ _
        _ = (_save_products now db found (c :: cs)).2 := by
              conv_rhs => unfold _save_products

/-- The progress-invariant relation between two successive callback
invocations `(current, total, found)`: the reported fraction
`current / total` does not decrease (stated cross-multiplied) and the
reported `total_found` does not decrease. -/
def ProgressRel (a b : Nat × Nat × Nat) : Prop :=
  a.1 * b.2.1 ≤ b.1 * a.2.1 ∧ a.2.2 ≤ b.2.2

/-- Invariant of the unit loop: on success, `total_found` grows, every
per-unit callback reports a unit index from the remaining list, the constant
total of 45, and a `total_found` between the entry and exit counts; and when
the remaining units are strictly increasing the trace satisfies
`ProgressRel` between successive entries. -/
theorem runUnits_trace (now : Int) (count : Nat) (o : PassOracle) (mx : Nat) :
    ∀ (us : List Nat) (db : DB) (found : Nat) (db' : DB) (found' : Nat)
      (tr : List (Nat × Nat × Nat)),
      runUnits now count o mx us db found = .ok (db', found', tr) →
      found ≤ found' ∧
      (∀ e ∈ tr, e.1 ∈ us ∧ e.2.1 = 45 ∧ found ≤ e.2.2 ∧ e.2.2 ≤ found') ∧
      (us.Pairwise (· < ·) → List.Chain' ProgressRel tr) := by
  intro us
  induction us with
  | nil =>
      intro db found db' found' tr h
      unfold runUnits at h
      injection h with h
      injection h with h1 h
      injection h with h2 h3
      subst h1; subst h2; subst h3
      refine ⟨le_refl _, ?_, ?_⟩
      · intro e he; exact absurd he (List.not_mem_nil e)
      · intro _; exact List.chain'_nil
  | cons u rest ih =>
      intro db found db' found' tr h
      unfold runUnits at h
      cases hr : randintE 1 mx (o.cnt u) with
      | error e => rw [hr] at h; exact absurd h (by simp)
      | ok n =>
          rw [hr] at h
          dsimp only at h
          set r := _save_products now db found ((List.range n).map fun k => o.gen u k) with hrdef
          have hmono : found ≤ r.2 := _save_products_found_mono now _ db found
          by_cases hc : count ≤ r.2
          · rw [if_pos hc] at h
            injection h with h
            injection h with h1 h
            injection h with h2 h3
            subst h1; subst h2; subst h3
            refine ⟨hmono, ?_, ?_⟩
            · intro e he
              rw [List.mem_singleton] at he
              subst he
              exact ⟨List.mem_cons_self u rest, rfl, le_refl _, hmono⟩
            · intro _
              exact List.chain'_singleton _
          · rw [if_neg hc] at h
            cases hrec : runUnits now count o mx rest r.1 r.2 with
            | error e => rw [hrec] at h; exact absurd h (by simp)
            | ok x =>
                obtain ⟨db₁, found₁, tr₁⟩ := x
                rw [hrec] at h
                dsimp only at h
                obtain ⟨ihmono, ihmem, ihchain⟩ := ih r.1 r.2 db₁ found₁ tr₁ hrec
                injection h with h
                injection h with h1 h
                injection h with h2 h3
                subst h1; subst h2; subst h3
                refine ⟨le_trans hmono ihmono, ?_, ?_⟩
                · intro e he
                  rcases List.mem_cons.mp he with he | he
                  · subst he
                    exact ⟨List.mem_cons_self u rest, rfl, le_refl _,
                      le_trans hmono ihmono⟩
                  · obtain ⟨hmem, h45, hlo, hhi⟩ := ihmem e he
                    exact ⟨List.mem_cons_of_mem u hmem, h45, le_trans hmono hlo, hhi⟩
                · intro hp
                  have hp' : rest.Pairwise (· < ·) := (List.pairwise_cons.mp hp).2
                  have hu : ∀ v ∈ rest, u < v := (List.pairwise_cons.mp hp).1
                  rw [List.chain'_cons']
                  refine ⟨?_, ihchain hp'⟩
                  intro b hb
                  have hbmem : b ∈ tr₁ := List.mem_of_mem_head? hb
                  obtain ⟨hbrest, hb45, hblo, _⟩ := ihmem b hbmem
                  constructor
                  · rw [hb45]
                    exact Nat.mul_le_mul_right _ (le_of_lt (hu b.1 hbrest))
                  · exact le_trans hmono hblo

/-- The progress-callback contract satisfied by every pass that completes:
a nonempty trace, a final invocation `(1, 1, total_found)` — so the final
`current_step` equals the final `total_steps` — and, between successive
invocations, a non-decreasing progress fraction `current_step / total_steps`
and a non-decreasing reported `total_found`.  A pass that raises satisfies
the contract vacuously. -/
def traceOK : Except String (DB × Nat × List (Nat × Nat × Nat)) → Prop
  | .error _ => True
  | .ok x =>
      x.2.2 ≠ [] ∧ x.2.2.getLast? = some (1, 1, x.2.1) ∧ List.Chain' ProgressRel x.2.2

end TdScraper

open TdScraper in
/-- C3 amended (progress reporting contract): for every store, target count
and randomness oracle, the callback trace of `search_trending_products`
ends with the completion signal `(1, 1, total_found)` — the final invocation
reports `current_step == total_steps` whatever was found — and along the
trace the progress fraction `current_step / total_steps` and the reported
cumulative `total_found` are monotonically non-decreasing.  (The raw
`current_step` integer is not monotone: the final call drops it to 1.) -/
theorem c3_progress_amended (db : DB) (now : Int) (count : Nat) (o : PassOracle) :
    traceOK (search_trending_products db now count o) := by
  unfold search_trending_products
  rw [if_pos (by rfl : _verify_llm_connection = true)]
  cases hrun : runUnits now count o (count / platforms.length / categories.length)
      (List.range (categories.length * platforms.length)) db 0 with
  | error e => exact trivial
  | ok x =>
      obtain ⟨db', found, tr⟩ := x
      obtain ⟨-, hmem, hchain⟩ := runUnits_trace now count o _ _ db 0 db' found tr hrun
      dsimp only [traceOK]
      refine ⟨by simp, List.getLast?_concat tr, ?_⟩
      rw [List.chain'_append]
      refine ⟨hchain (List.pairwise_lt_range _), List.chain'_singleton _, ?_⟩
      intro x hx y hy
      have hxtr : x ∈ tr := List.mem_of_mem_getLast? hx
      obtain ⟨hxu, hx45, -, hxhi⟩ := hmem x hxtr
      have hy' : y = (1, 1, found) := by
        have := hy
        simp only [List.head?_cons, Option.mem_def, Option.some.injEq] at this
        exact this.symm
      subst hy'
      have hxlt : x.1 < 45 := by
        have := List.mem_range.mp hxu
        simpa using this
      constructor
      · show x.1 * 1 ≤ 1 * x.2.1
        rw [hx45]
        omega
      · exact hxhi

open TdScraper in
/-- Extract the callback trace from a pass result. -/
def traceOf (r : Except String (DB × Nat × List (Nat × Nat × Nat))) :
    List (Nat × Nat × Nat) :=
  match r with
  | .ok x => x.2.2
  | .error _ => []

open TdScraper in
/-- A per-unit candidate generator producing a distinct two-letter product
name for each of the 45 units, so that every unit inserts a fresh product. -/
def genC3 (u : Nat) : Candidate :=
  { name := String.mk [Char.ofNat (65 + u / 26), Char.ofNat (65 + u % 26)],
    category := "electronics", subcategory := "chargers",
    price_range_low := 10, price_range_high := 20, trend_score := 60,
    engagement_rate := 60, sales_velocity := 60, search_volume := 60,
    geographic_spread := 60, trends := [], regions := [], videos := [] }

open TdScraper in
/-- Oracle for the C3 counterexample: every `randint(1, max)` draw is the
minimum, and unit `u` generates the fresh candidate `genC3 u`. -/
def oracleC3 : PassOracle := { cnt := fun _ => 0, gen := fun u _ => genC3 u }

open TdScraper in
/-- C3 counterexample: in a completing pass from the empty store with
`count = 45`, the callback receives `current_step` values
`0, 1, ..., 44` and then `1` (the final `(1, 1, total_found)` call), so the
sequence of raw `current_step` values is not monotonically non-decreasing:
the claim as stated fails on the final invocation. -/
theorem c3_progress_counterexample :
    ((traceOf (search_trending_products dbEmpty 0 45 oracleC3)).map fun e => e.1)
        = List.range 45 ++ [1] ∧
    ¬ List.Chain' (fun a b : Nat => a ≤ b)
        ((traceOf (search_trending_products dbEmpty 0 45 oracleC3)).map fun e => e.1) := by
  have h : ((traceOf (search_trending_products dbEmpty 0 45 oracleC3)).map fun e => e.1)
      = List.range 45 ++ [1] := by decide
  refine ⟨h, ?_⟩
  rw [h]
  intro hch
  rw [List.chain'_append] at hch
  obtain ⟨-, -, hlast⟩ := hch
  have hl : (List.range 45).getLast? = some 44 := by decide
  have h441 := hlast 44 (by rw [hl]; rfl) 1 rfl
  exact absurd h441 (by decide)

open TdScraper in
/-- C9 (implicit precondition on the target count): for `1 ≤ count < 45`
the per-combination cap `count // len(platforms) // len(categories)` is 0,
so the very first unit calls `random.randint(1, 0)` on an empty range and
the pass raises before anything is saved; a pass can therefore only
complete normally when `count ≥ 45`. -/
theorem c9_small_count_raises (db : DB) (now : Int) (count : Nat) (o : PassOracle)
    (h1 : 1 ≤ count) (h45 : count < 45) :
    search_trending_products db now count o = .error "empty range for randrange" := by
  have hmx : count / platforms.length / categories.length = 0 := by
    simp only [show platforms.length = 5 from rfl, show categories.length = 9 from rfl]
    omega
  unfold search_trending_products
  rw [if_pos (by rfl : _verify_llm_connection = true), hmx]
  cases hr : List.range (categories.length * platforms.length) with
  | nil => simp [List.range_eq_nil, categories, platforms] at hr
  | cons u rest =>
      unfold runUnits
      simp [randintE]

open TdScraper in
/-- Oracle used to instantiate C9. -/
def oracleC9 : PassOracle := { cnt := fun _ => 0, gen := fun _ _ => cW60 }

open TdScraper in
/-- Witness for C9: a pass with target count 1 raises the empty-range error. -/
theorem c9_small_count_raises_witness :
    search_trending_products dbEmpty 0 1 oracleC9 = .error "empty range for randrange" :=
  c9_small_count_raises dbEmpty 0 1 oracleC9 (by decide) (by decide)

/-! ## C5: the region generator -/

namespace TdScraper

/-- Incrementing an in-bounds entry raises the sum by exactly one. -/
theorem incAt_sum : ∀ (l : List Nat) (i : Nat), i < l.length → (incAt l i).sum = l.sum + 1 := by
  intro l
  induction l with
  | nil => intro i h; simp at h
  | cons a t ih =>
      intro i h
      cases i with
      | zero =>
          unfold incAt
          rw [List.getD_cons_zero, List.set_cons_zero]
          simp only [List.sum_cons]
          omega
      | succ j =>
          unfold incAt
          rw [List.getD_cons_succ, List.set_cons_succ]
          simp only [List.sum_cons]
          have hj : j < t.length := by simpa using h
          have := ih j hj
          unfold incAt at this
          omega

/-- `incAt` preserves the length. -/
theorem incAt_length (l : List Nat) (i : Nat) : (incAt l i).length = l.length := by
  unfold incAt
  exact List.length_set _ _ _

/-- The first adjustment loop reaches a sum of exactly 100 whenever the
initial sum is at most 100 and the fuel covers the deficit, and it
preserves the length. -/
theorem fillLoop_sum (pick : Nat → Nat) :
    ∀ (fuel : Nat) (l : List Nat), 0 < l.length → l.sum ≤ 100 → 100 ≤ l.sum + fuel →
      (fillLoop pick fuel l).sum = 100 ∧ (fillLoop pick fuel l).length = l.length := by
  intro fuel
  induction fuel with
  | zero =>
      intro l _ hle hge
      unfold fillLoop
      exact ⟨by omega, rfl⟩
  | succ f ih =>
      intro l hlen hle hge
      unfold fillLoop
      by_cases hs : l.sum < 100
      · rw [if_pos hs]
        have hi : pick (f + 1) % l.length < l.length := Nat.mod_lt _ hlen
        have hsum := incAt_sum l _ hi
        have hlen' := incAt_length l (pick (f + 1) % l.length)
        obtain ⟨h1, h2⟩ := ih (incAt l (pick (f + 1) % l.length))
          (by rw [hlen']; exact hlen) (by omega) (by omega)
        exact ⟨h1, by rw [h2, hlen']⟩
      · rw [if_neg hs]
        exact ⟨by omega, rfl⟩

/-- The second adjustment loop does nothing when the sum is already at
most 100. -/
theorem shrinkLoop_eq_self (pick : Nat → Nat) (fuel : Nat) (l : List Nat)
    (h : l.sum ≤ 100) : shrinkLoop pick fuel l = l := by
  cases fuel with
  | zero => rfl
  | succ f =>
      unfold shrinkLoop
      rw [if_neg (by omega)]

/-- Division distributes superadditively over addition. -/
theorem div_add_div_le (a b T : Nat) : a / T + b / T ≤ (a + b) / T := by
  rcases Nat.eq_zero_or_pos T with h | h
  · subst h; simp
  · rw [Nat.le_div_iff_mul_le h, Nat.add_mul]
    exact Nat.add_le_add (Nat.div_mul_le_self a T) (Nat.div_mul_le_self b T)

/-- The sum of the normalised entries `p * 100 / T` is at most
`(100 * sum) / T`. -/
theorem sum_map_div_le (T : Nat) :
    ∀ l : List Nat, ((l.map fun p => p * 100 / T).sum) ≤ 100 * l.sum / T := by
  intro l
  induction l with
  | nil => simp
  | cons a t ih =>
      simp only [List.map_cons, List.sum_cons]
      calc a * 100 / T + ((t.map fun p => p * 100 / T).sum)
          ≤ a * 100 / T + 100 * t.sum / T := Nat.add_le_add_left ih _
        _ ≤ (a * 100 + 100 * t.sum) / T := div_add_div_le _ _ _
        _ = 100 * (a + t.sum) / T := by ring_nf

/-- `random.sample` returns exactly `n` elements when the pool is large
enough. -/
theorem sample_length (pick : Nat → Nat) :
    ∀ (n : Nat) (pool : List String), n ≤ pool.length → (sample pick n pool).length = n := by
  intro n
  induction n with
  | zero => intro pool _; rfl
  | succ k ih =>
      intro pool h
      cases pool with
      | nil => simp at h
      | cons a l =>
          have hi : pick (k + 1) % (l.length + 1) < l.length + 1 :=
            Nat.mod_lt _ (by omega)
          have herase : ((a :: l).eraseIdx (pick (k + 1) % (l.length + 1))).length
              = l.length := by
            rw [List.length_eraseIdx]
            simp only [List.length_cons]
            rw [if_pos hi]
            simp
          have h' : k ≤ l.length := by
            simp only [List.length_cons] at h
            omega
          unfold sample
          simp only [List.length_cons]
          rw [ih _ (by rw [herase]; exact h')]

/-- Pairing countries with percentages and reading the percentages back
gives the percentage list, summed as integers. -/
theorem zipWith_percentage_sum :
    ∀ (xs : List String) (ys : List Nat), xs.length = ys.length →
      ((List.zipWith (fun (c : String) (p : Nat) => RegionData.mk c (p : Int)) xs ys).map
          RegionData.percentage).sum = (ys.sum : Int) := by
  intro xs
  induction xs with
  | nil =>
      intro ys h
      cases ys with
      | nil => simp
      | cons b t => simp at h
  | cons a xs ih =>
      intro ys h
      cases ys with
      | nil => simp at h
      | cons b t =>
          simp only [List.zipWith_cons_cons, List.map_cons, List.sum_cons]
          rw [ih t (by simpa using h)]
          push_cast
          ring

end TdScraper

open TdScraper in
/-- C5 (region-sum invariant of the generator): for every randomness draw,
`_generate_mock_regions` returns between 3 and 6 region entries whose
integer percentages sum to exactly 100. -/
theorem c5_region_sum (g : RegionRand) :
    3 ≤ (_generate_mock_regions g).length ∧ (_generate_mock_regions g).length ≤ 6 ∧
    ((_generate_mock_regions g).map RegionData.percentage).sum = 100 := by
  unfold _generate_mock_regions
  dsimp only
  have hn3 : 3 ≤ randint 3 6 g.numPick := by unfold randint; omega
  have hn6 : randint 3 6 g.numPick ≤ 6 := by
    unfold randint
    have : g.numPick % (6 + 1 - 3) < 4 := Nat.mod_lt _ (by omega)
    omega
  set n := randint 3 6 g.numPick with hn
  set percentages := (List.range n).map fun k => randint 5 100 (g.pctPick k) with hpct
  have hplen : percentages.length = n := by
    rw [hpct, List.length_map, List.length_range]
  have hppos : ∀ x ∈ percentages, 0 < x := by
    intro x hx
    rw [hpct] at hx
    obtain ⟨k, -, hk⟩ := List.mem_map.mp hx
    rw [← hk]
    unfold randint
    omega
  have hpne : percentages ≠ [] := by
    intro hc
    rw [hc] at hplen
    simp at hplen
    omega
  have hT : 0 < percentages.sum := List.sum_pos _ hppos hpne
  set T := percentages.sum with hTdef
  set normalized := percentages.map fun p => p * 100 / T with hnorm
  have hnlen : normalized.length = n := by rw [hnorm, List.length_map, hplen]
  have hnsum : normalized.sum ≤ 100 := by
    rw [hnorm]
    calc ((percentages.map fun p => p * 100 / T).sum) ≤ 100 * T / T :=
          sum_map_div_le T percentages
      _ = 100 := Nat.mul_div_cancel 100 hT
  obtain ⟨hfsum, hflen⟩ := fillLoop_sum g.fillPick 100 normalized
    (by rw [hnlen]; omega) hnsum (by omega)
  rw [shrinkLoop_eq_self g.shrinkPick 100 _ (by rw [hfsum])]
  have hslen : (sample g.samplePick n countries).length = n :=
    sample_length g.samplePick n countries (by rw [show countries.length = 10 from rfl]; omega)
  have hziplen : (List.zipWith (fun (c : String) (p : Nat) => RegionData.mk c (p : Int))
      (sample g.samplePick n countries) (fillLoop g.fillPick 100 normalized)).length = n := by
    rw [List.length_zipWith, hslen, hflen, hnlen]
    exact min_self n
  refine ⟨by rw [hziplen]; exact hn3, by rw [hziplen]; exact hn6, ?_⟩
  rw [zipWith_percentage_sum _ _ (by rw [hslen, hflen, hnlen]), hfsum]
  rfl

/-! ## C7: the already-running guard -/

open ScraperRoutes in
/-- C7 (already-running guard): while a pass is in flight and `force` is not
set, `start_scraper` returns the "already running" error body, adds no
background task, and leaves the status state exactly as it was. -/
theorem c7_already_running_guard (st : ScraperState) (count : Option Nat)
    (max_products : Nat) (h : st.running = true) :
    start_scraper st count false max_products
      = ({ status := "error", message := "Scraper is already running", running := true,
           progress := st.progress, total_found := st.total_found }, st, 0) := by
  unfold start_scraper
  rw [h]
  simp

/-- A status register with a pass in flight. -/
def stRunning : ScraperRoutes.ScraperState :=
  { running := true, progress := 40, total_found := 7, error := none }

open ScraperRoutes in
/-- Witness for C7 at a concrete in-flight status register. -/
theorem c7_already_running_guard_witness :
    start_scraper stRunning none false 1000
      = ({ status := "error", message := "Scraper is already running", running := true,
           progress := 40, total_found := 7 }, stRunning, 0) :=
  c7_already_running_guard stRunning none 1000 rfl

end TrendDrop
